import Mathlib

/-!
Verification development for the gravity-genesis transaction-replay and
state-bundling engine.  The definitions below are shallow embeddings of the
Rust source (src/gravity-genesis/src): byte sequences are `List Nat` (each
element a byte value), machine words are `Nat` with explicit masking,
addresses are `Nat` (160-bit values), and fallible operations return
`Except String`.  Keccak-256 is implemented executably so that
deployment-address derivation (`Address::create`), 4-byte error selectors
and the block-hash placeholder can be computed inside proofs.
-/

namespace GravityGenesis

/-- Mask for 64-bit lanes, 2^64 - 1. -/
def M64 : Nat := 18446744073709551615

/-- Rotate a 64-bit lane left by `n` bits (0 ≤ n < 64). -/
def rotl64 (x n : Nat) : Nat := ((x <<< n) ||| (x >>> (64 - n))) &&& M64

/-- Read lane `i` of a Keccak state (25 lanes, row-major x + 5*y). -/
def lane (s : List Nat) (i : Nat) : Nat := s.getD i 0

/-- Keccak rho rotation offsets, indexed by x + 5*y, one row (fixed y) per
group. -/
def keccakRotOffsets : List Nat :=
  [0, 1, 62, 28, 27] ++
  [36, 44, 6, 55, 20] ++
  [3, 10, 43, 25, 39] ++
  [41, 45, 15, 21, 8] ++
  [18, 2, 61, 56, 14]

/-- Keccak-f[1600] round constants (decimal, three rounds per group). -/
def keccakRC : List Nat :=
  [1, 32898, 9223372036854808714] ++
  [9223372039002292224, 32907, 2147483649] ++
  [9223372039002292353, 9223372036854808585, 138] ++
  [136, 2147516425, 2147483658] ++
  [2147516555, 9223372036854775947, 9223372036854808713] ++
  [9223372036854808579, 9223372036854808578, 9223372036854775936] ++
  [32778, 9223372039002259466, 9223372039002292353] ++
  [9223372036854808704, 2147483649, 9223372039002292232]

/-- Keccak theta step. -/
def theta (s : List Nat) : List Nat :=
  let c := (List.range 5).map
    (fun x => lane s x ^^^ lane s (x + 5) ^^^ lane s (x + 10) ^^^ lane s (x + 15) ^^^ lane s (x + 20))
  let d := (List.range 5).map
    (fun x => lane c ((x + 4) % 5) ^^^ rotl64 (lane c ((x + 1) % 5)) 1)
  (List.range 25).map (fun i => lane s i ^^^ lane d (i % 5))

/-- Keccak rho and pi steps combined: output lane (x, y) comes from input lane
((x + 3y) mod 5, x) rotated by its rho offset. -/
def rhoPi (s : List Nat) : List Nat :=
  (List.range 25).map (fun i =>
    let x := i % 5
    let y := i / 5
    let sx := (x + 3 * y) % 5
    rotl64 (lane s (sx + 5 * x)) (lane keccakRotOffsets (sx + 5 * x)))

/-- Keccak chi step. -/
def chi (s : List Nat) : List Nat :=
  (List.range 25).map (fun i =>
    let x := i % 5
    let y := i / 5
    lane s i ^^^ ((M64 ^^^ lane s ((x + 1) % 5 + 5 * y)) &&& lane s ((x + 2) % 5 + 5 * y)))

/-- One Keccak round: theta, rho, pi, chi, iota with round constant `rc`. -/
def keccakRound (s : List Nat) (rc : Nat) : List Nat :=
  let t := chi (rhoPi (theta s))
  (lane t 0 ^^^ rc) :: t.drop 1

/-- The Keccak-f[1600] permutation: 24 rounds. -/
def keccakF (s : List Nat) : List Nat := keccakRC.foldl keccakRound s

/-- Interpret up to 8 bytes as a little-endian 64-bit lane. -/
def leLane (bytes : List Nat) : Nat := bytes.foldr (fun b acc => b + (acc <<< 8)) 0

/-- Split a 136-byte rate block into 17 lanes. -/
def blockLanes (block : List Nat) : List Nat :=
  (List.range 17).map (fun j => leLane ((block.drop (8 * j)).take 8))

/-- Xor a rate block into the first 17 lanes of the state. -/
def xorBlock (st block : List Nat) : List Nat :=
  let bl := blockLanes block
  (List.range 25).map (fun i => if i < 17 then lane st i ^^^ lane bl i else lane st i)

/-- Keccak pad10*1 padding with domain byte 0x01 (original Keccak, as used by
Ethereum), to a multiple of the 136-byte rate. -/
def padKeccak (msg : List Nat) : List Nat :=
  let padLen := 136 - msg.length % 136
  if padLen == 1 then msg ++ [0x81]
  else msg ++ 0x01 :: (List.replicate (padLen - 2) 0 ++ [0x80])

/-- Absorb a padded message block by block (fuel-indexed structural recursion;
the fuel is always at least the number of blocks). -/
def absorbChunks : Nat → List Nat → List Nat → List Nat
  | 0, st, _ => st
  | fuel + 1, st, msg =>
    if msg.isEmpty then st
    else absorbChunks fuel (keccakF (xorBlock st (msg.take 136))) (msg.drop 136)

/-- Squeeze the first 32 bytes (little-endian per lane) of the state. -/
def squeeze32 (st : List Nat) : List Nat :=
  (List.range 32).map (fun j => (lane st (j / 8) >>> (8 * (j % 8))) &&& 255)

/-- Keccak-256 of a byte sequence. -/
def keccak256 (msg : List Nat) : List Nat :=
  let padded := padKeccak msg
  squeeze32 (absorbChunks padded.length (List.replicate 25 0) padded)

/-- Minimal big-endian byte representation of `n` (empty for 0), fuel-indexed. -/
def beBytesAux : Nat → Nat → List Nat
  | 0, _ => []
  | fuel + 1, n => if n == 0 then [] else beBytesAux fuel (n / 256) ++ [n % 256]

/-- Minimal big-endian bytes of a nonce (fuel 64 covers all 64-bit values). -/
def beBytes (n : Nat) : List Nat := beBytesAux 64 n

/-- Fixed-width big-endian byte representation (width `w` bytes). -/
def beBytesFixed (w n : Nat) : List Nat :=
  (List.range w).map (fun i => (n >>> (8 * (w - 1 - i))) &&& 255)

/-- Big-endian bytes to a natural number. -/
def bytesToNatBE (l : List Nat) : Nat := l.foldl (fun acc b => (acc <<< 8) + b) 0

/-- RLP encoding of a nonce as used by alloy's Address::create. -/
def rlpNonce (nonce : Nat) : List Nat :=
  if nonce == 0 then [0x80]
  else if nonce < 0x80 then [nonce]
  else (0x80 + (beBytes nonce).length) :: beBytes nonce

/-- The CREATE address derivation used by alloy's Address::create:
keccak256(rlp([sender, nonce]))[12..32], as a 160-bit natural number.
The RLP payload (20-byte sender plus nonce) is always shorter than 56 bytes,
so the short list form applies. -/
def createAddress (sender nonce : Nat) : Nat :=
  let payload := (0x80 + 20) :: (beBytesFixed 20 sender ++ rlpNonce nonce)
  let encoded := (0xc0 + payload.length) :: payload
  bytesToNatBE ((keccak256 encoded).drop 12)

/-- ASCII bytes of a string. -/
def asciiBytes (s : String) : List Nat := s.data.map (fun c => c.toNat)

/-- Decimal digits of `n`, most significant first (fuel-indexed). -/
def decimalDigitsAux : Nat → Nat → List Nat
  | 0, _ => []
  | fuel + 1, n => if n < 10 then [n] else decimalDigitsAux fuel (n / 10) ++ [n % 10]

/-- ASCII bytes of the decimal representation of `n` (u64 to_string). -/
def decimalAscii (n : Nat) : List Nat := (decimalDigitsAux 32 n).map (fun d => d + 48)

/-- Decimal string of a natural number. -/
def natToDec (n : Nat) : String :=
  String.mk ((decimalDigitsAux 32 n).map (fun d => Char.ofNat (d + 48)))

/-- Lower-case hex digit character. -/
def hexDigit (d : Nat) : Char := Char.ofNat (if d < 10 then d + 48 else d + 87)

/-- Lower-case hex encoding of a byte sequence (hex::encode). -/
def hexEncode (bytes : List Nat) : String :=
  String.mk (bytes.foldr (fun b acc => hexDigit (b / 16) :: hexDigit (b % 16) :: acc) [])

/-- The 4-byte Solidity error selector of a signature: first four bytes of the
keccak256 of the ASCII signature. -/
def errorSelector (signature : String) : List Nat := (keccak256 (asciiBytes signature)).take 4

/-! Data model, from revm primitives as used by the repository. -/

/-- Basic account info: balance, nonce, code hash, optional code
(revm AccountInfo; code bytes as a byte list). -/
structure AccountInfo where
  balance : Nat
  nonce : Nat
  code_hash : Nat
  code : Option (List Nat)
deriving DecidableEq, Repr

/-- An account with its storage map (revm PlainAccount; the HashMap of
256-bit keys to values is modelled as an association list with unique keys). -/
structure PlainAccount where
  info : AccountInfo
  storage : List (Nat × Nat)
deriving DecidableEq, Repr

/-- The in-memory chain snapshot (storage.rs InMemoryDB).  HashMaps are
modelled as association lists; the simulated-latency field only sleeps and
never changes any returned value. -/
structure InMemoryDB where
  accounts : List (Nat × PlainAccount)
  bytecodes : List (Nat × List Nat)
  block_hashes : List (Nat × Nat)
  latency_us : Nat
deriving DecidableEq, Repr

/-- InMemoryDB::basic_ref: account info, or none when absent; never errors. -/
def InMemoryDB.basic_ref (db : InMemoryDB) (address : Nat) :
    Except String (Option AccountInfo) :=
  .ok ((db.accounts.lookup address).map (fun a => a.info))

/-- InMemoryDB::code_by_hash_ref: the code bytes, or a CodeNotFound-style
error when the hash is absent from the code table. -/
def InMemoryDB.code_by_hash_ref (db : InMemoryDB) (code_hash : Nat) :
    Except String (List Nat) :=
  match db.bytecodes.lookup code_hash with
  | some c => .ok c
  | none => .error ("can\x27t find code by hash 0x" ++ hexEncode (beBytesFixed 32 code_hash))

/-- InMemoryDB::storage_ref: errors when the account is absent; returns the
stored value, defaulting to zero, when the account is present.  (The source
renders the address with the alloy Display instance; the checksum casing of
that rendering is abstracted to lower-case hex here.) -/
def InMemoryDB.storage_ref (db : InMemoryDB) (address index : Nat) :
    Except String Nat :=
  match db.accounts.lookup address with
  | none => .error ("can\x27t find account 0x" ++ hexEncode (beBytesFixed 20 address))
  | some account => .ok ((account.storage.lookup index).getD 0)

/-- InMemoryDB::block_hash_ref: the recorded hash, or the deterministic
placeholder keccak256 of the decimal string of the number; never errors. -/
def InMemoryDB.block_hash_ref (db : InMemoryDB) (number : Nat) :
    Except String Nat :=
  .ok ((db.block_hashes.lookup number).getD (bytesToNatBE (keccak256 (decimalAscii number))))

/-- Transaction target (revm TxKind). -/
inductive TxKind where
  | create
  | call (address : Nat)
deriving DecidableEq, Repr, Inhabited

/-- Transaction environment (revm TxEnv, the fields the repository uses). -/
structure TxEnv where
  caller : Nat
  gas_limit : Nat
  gas_price : Nat
  transact_to : TxKind
  value : Nat
  data : List Nat
deriving DecidableEq, Repr, Inhabited

/-- Execution outcome of one transaction (revm ExecutionResult; the Halt
reason is kept as its Debug rendering, success logs are not needed by any
claim and the Success output field stands for the returned bytes). -/
inductive ExecutionResult where
  | success (gas_used : Nat) (output : List Nat)
  | revert (gas_used : Nat) (output : List Nat)
  | halt (reason : String) (gas_used : Nat)
deriving DecidableEq, Repr, Inhabited

/-- ExecutionResult::is_success. -/
def ExecutionResult.is_success : ExecutionResult → Bool
  | .success _ _ => true
  | _ => false

/-! Revert classification (utils.rs analyze_revert_reason, duplicated
verbatim in execute.rs; and execute.rs match_execution_revert_reason). -/

/-- The revert classifier of utils.rs/execute.rs analyze_revert_reason:
formats gas, then if the output has at least 4 bytes matches them against a
hard-coded selector table, then appends the trailing bytes when the output
is longer than 4 bytes. -/
def analyze_revert_reason : ExecutionResult → String
  | .revert gas_used output =>
    let reason := "Revert with gas used: " ++ natToDec gas_used
    let reason :=
      if 4 ≤ output.length then
        let sel := output.take 4
        let r := reason ++ "\nFunction selector: 0x" ++ hexEncode sel
        r ++ (if sel = [0x97, 0xb8, 0x83, 0x54] then " (OnlySystemCaller)"
          else if sel = [0x0a, 0x5a, 0x60, 0x41] then " (UnknownParam)"
          else if sel = [0x11, 0x6c, 0x64, 0xa8] then " (InvalidValue)"
          else if sel = [0x83, 0xf1, 0xb1, 0xd3] then " (OnlyCoinbase)"
          else if sel = [0xf2, 0x2c, 0x43, 0x90] then " (OnlyZeroGasPrice)"
          else " (Unknown error selector)")
      else reason
    if 4 < output.length then
      reason ++ "\nAdditional data: 0x" ++ hexEncode (output.drop 4)
    else reason
  | .success gas_used _ => "Success with gas used: " ++ natToDec gas_used
  | .halt reason gas_used => "Halt: " ++ reason ++ " with gas used: " ++ natToDec gas_used

/-- Selector of the error OnlySystemCaller(), as the sol macro computes it. -/
def OnlySystemCallerSelector : List Nat := errorSelector "OnlySystemCaller()"

/-- Selector of the error UnknownParam(string,bytes). -/
def UnknownParamSelector : List Nat := errorSelector "UnknownParam(string,bytes)"

/-- Selector of the error InvalidValue(string,bytes). -/
def InvalidValueSelector : List Nat := errorSelector "InvalidValue(string,bytes)"

/-- Selector of the error OnlyCoinbase(). -/
def OnlyCoinbaseSelector : List Nat := errorSelector "OnlyCoinbase()"

/-- Selector of the error OnlyZeroGasPrice(). -/
def OnlyZeroGasPriceSelector : List Nat := errorSelector "OnlyZeroGasPrice()"

/-- Selector of the error OnlySystemContract(address). -/
def OnlySystemContractSelector : List Nat := errorSelector "OnlySystemContract(address)"

/-- execute.rs match_execution_revert_reason: compares the WHOLE revert
output for equality with each declared error's 4-byte selector (so an output
with a trailing payload matches nothing), otherwise reports the raw output. -/
def match_execution_revert_reason : ExecutionResult → String
  | .revert _ output =>
    if output = OnlySystemCallerSelector then "Revert Reason: OnlySystemCaller()"
    else if output = UnknownParamSelector then "Revert Reason: UnknownParam()"
    else if output = InvalidValueSelector then "Revert Reason: InvalidValue()"
    else if output = OnlyCoinbaseSelector then "Revert Reason: OnlyCoinbase()"
    else if output = OnlyZeroGasPriceSelector then "Revert Reason: OnlyZeroGasPrice()"
    else if output = OnlySystemContractSelector then "Revert Reason: OnlySystemContract()"
    else "Unknown revert reason: 0x" ++ hexEncode output
  | _ => "Unknown revert reason"

/-! Sequential executor (execute.rs execute_revm_sequential and
execute_revm_sequential_with_logging).  The external revm machinery is the
Contract-Execution Capability: `transact` runs one transaction against the
cumulative view (Err is a VM-level EVMError, a Revert is a normal Ok
result), `commit` folds the returned state diff into the cumulative view,
and `take_bundle` models merge_transitions(BundleRetention::Reverts)
followed by take_bundle. -/

structure EvmCapability (σ δ β ε : Type) where
  transact : σ → TxEnv → Except ε (ExecutionResult × δ)
  commit : σ → δ → σ
  take_bundle : σ → β

/-- The transaction loop of execute_revm_sequential: for each transaction in
list order, transact (propagating a VM-level error immediately), commit the
returned diff into the cumulative view, and push the result. -/
def execSeqGo (cap : EvmCapability σ δ β ε) :
    σ → List TxEnv → Except ε (List ExecutionResult × σ)
  | s, [] => .ok ([], s)
  | s, tx :: rest =>
    match cap.transact s tx with
    | .error e => .error e
    | .ok rd =>
      match execSeqGo cap (cap.commit s rd.2) rest with
      | .error e => .error e
      | .ok rssf => .ok (rd.1 :: rssf.1, rssf.2)

/-- execute.rs execute_revm_sequential: run the loop from the initial built
state, then merge transitions and take the bundle. -/
def execute_revm_sequential (cap : EvmCapability σ δ β ε) (s₀ : σ)
    (txs : List TxEnv) : Except ε (List ExecutionResult × β) :=
  match execSeqGo cap s₀ txs with
  | .error e => .error e
  | .ok rssf => .ok (rssf.1, cap.take_bundle rssf.2)

/-- One console line printed by the logging variant, with the data it
carries (the stdout side effect made explicit). -/
inductive LogLine where
  | executing (i : Nat)
  | txDetails
  | caller (a : Nat)
  | transactTo (t : TxKind)
  | dataLength (n : Nat)
  | functionSelector (sel : List Nat)
  | txResult (s : String)
  | completed (i : Nat)
deriving DecidableEq, Repr

/-- The per-transaction header printed before executing transaction number
`i` (1-based) in execute_revm_sequential_with_logging. -/
def txHeaderLog (i : Nat) (tx : TxEnv) : List LogLine :=
  [.executing i, .txDetails, .caller tx.caller, .transactTo tx.transact_to,
   .dataLength tx.data.length]
  ++ (if 4 ≤ tx.data.length then [.functionSelector (tx.data.take 4)] else [])

/-- The transaction loop of execute_revm_sequential_with_logging: identical
to execSeqGo except that it also emits the console lines. -/
def execSeqLogGo (cap : EvmCapability σ δ β ε) :
    σ → Nat → List TxEnv → List LogLine × Except ε (List ExecutionResult × σ)
  | s, _, [] => ([], .ok ([], s))
  | s, i, tx :: rest =>
    let hdr := txHeaderLog (i + 1) tx
    match cap.transact s tx with
    | .error e => (hdr, .error e)
    | .ok rd =>
      let tail := execSeqLogGo cap (cap.commit s rd.2) (i + 1) rest
      (hdr ++ [.txResult (analyze_revert_reason rd.1), .completed (i + 1)] ++ tail.1,
        match tail.2 with
        | .error e => .error e
        | .ok rssf => .ok (rd.1 :: rssf.1, rssf.2))

/-- execute.rs execute_revm_sequential_with_logging: same computation as
execute_revm_sequential, returning in addition the emitted console lines. -/
def execute_revm_sequential_with_logging (cap : EvmCapability σ δ β ε)
    (s₀ : σ) (txs : List TxEnv) :
    List LogLine × Except ε (List ExecutionResult × β) :=
  let out := execSeqLogGo cap s₀ 0 txs
  (out.1,
    match out.2 with
    | .error e => .error e
    | .ok rssf => .ok (rssf.1, cap.take_bundle rssf.2))

/-- The failure scan of genesis_generate / deploy_and_constrcut_all over the
returned results: the 1-based index of the first non-success result at which
the orchestration aborts, if any. -/
def firstFailureIndex (results : List ExecutionResult) : Option Nat :=
  (results.findIdx? (fun r => !r.is_success)).map (fun i => i + 1)

/-- A capability built from a total step function (a VM that never raises a
VM-level error; a Revert is still a normal result). -/
def stepCapability (step : σ → TxEnv → ExecutionResult × δ) (commit : σ → δ → σ)
    (tb : σ → β) : EvmCapability σ δ β ε :=
  { transact := fun s tx => .ok (step s tx), commit := commit, take_bundle := tb }

/-- The cumulative view after committing, in order, the diffs of all the
given transactions starting from `s`. -/
def cumulativeState (step : σ → TxEnv → ExecutionResult × δ) (commit : σ → δ → σ)
    (s : σ) (txs : List TxEnv) : σ :=
  txs.foldl (fun s tx => commit s (step s tx).2) s

/-! Deployment sequencing and address remapping (contracts.rs, utils.rs
address constants, execute.rs genesis_generate). -/

/-- utils.rs SYSTEM_ADDRESS, the designated deployer (the zero address). -/
def SYSTEM_ADDRESS : Nat := 0

/-- utils.rs SYSTEM_CALLER. -/
def SYSTEM_CALLER : Nat := 0xff

/-- utils.rs GENESIS_ADDR. -/
def GENESIS_ADDR : Nat := 0x1008

/-- utils.rs EPOCH_MANAGER_ADDR. -/
def EPOCH_MANAGER_ADDR : Nat := 0xf3

/-- utils.rs STAKE_CONFIG_ADDR. -/
def STAKE_CONFIG_ADDR : Nat := 0x2008

/-- utils.rs DELEGATION_ADDR. -/
def DELEGATION_ADDR : Nat := 0x2009

/-- utils.rs VALIDATOR_MANAGER_ADDR. -/
def VALIDATOR_MANAGER_ADDR : Nat := 0x2010

/-- utils.rs VALIDATOR_PERFORMANCE_TRACKER_ADDR. -/
def VALIDATOR_PERFORMANCE_TRACKER_ADDR : Nat := 0x200b

/-- utils.rs BLOCK_ADDR. -/
def BLOCK_ADDR : Nat := 0x2001

/-- utils.rs TIMESTAMP_ADDR. -/
def TIMESTAMP_ADDR : Nat := 0x2004

/-- utils.rs JWK_MANAGER_ADDR. -/
def JWK_MANAGER_ADDR : Nat := 0x2002

/-- utils.rs KEYLESS_ACCOUNT_ADDR. -/
def KEYLESS_ACCOUNT_ADDR : Nat := 0x200a

/-- utils.rs SYSTEM_REWARD_ADDR. -/
def SYSTEM_REWARD_ADDR : Nat := 0x1002

/-- utils.rs GOV_HUB_ADDR. -/
def GOV_HUB_ADDR : Nat := 0x1007

/-- utils.rs STAKE_CREDIT_ADDR. -/
def STAKE_CREDIT_ADDR : Nat := 0x2003

/-- utils.rs GOV_TOKEN_ADDR. -/
def GOV_TOKEN_ADDR : Nat := 0x2005

/-- utils.rs GOVERNOR_ADDR. -/
def GOVERNOR_ADDR : Nat := 0x2006

/-- utils.rs TIMELOCK_ADDR. -/
def TIMELOCK_ADDR : Nat := 0x2007

/-- The deployment-derived addresses of the 21 contracts, in the order they
are deployed by genesis_generate / deploy_and_constrcut_all: the k-th deploy
function hard-codes creation counter k for the single deployer
SYSTEM_ADDRESS (deploy_system_contract uses 1, deploy_system_reward_contract
uses 2, ..., deploy_bytes_contract uses 21). -/
def genesisDeploymentAddresses : List Nat :=
  [createAddress SYSTEM_ADDRESS 1,
   createAddress SYSTEM_ADDRESS 2,
   createAddress SYSTEM_ADDRESS 3,
   createAddress SYSTEM_ADDRESS 4,
   createAddress SYSTEM_ADDRESS 5,
   createAddress SYSTEM_ADDRESS 6,
   createAddress SYSTEM_ADDRESS 7,
   createAddress SYSTEM_ADDRESS 8,
   createAddress SYSTEM_ADDRESS 9,
   createAddress SYSTEM_ADDRESS 10,
   createAddress SYSTEM_ADDRESS 11,
   createAddress SYSTEM_ADDRESS 12,
   createAddress SYSTEM_ADDRESS 13,
   createAddress SYSTEM_ADDRESS 14,
   createAddress SYSTEM_ADDRESS 15,
   createAddress SYSTEM_ADDRESS 16,
   createAddress SYSTEM_ADDRESS 17,
   createAddress SYSTEM_ADDRESS 18,
   createAddress SYSTEM_ADDRESS 19,
   createAddress SYSTEM_ADDRESS 20,
   createAddress SYSTEM_ADDRESS 21]

/-- The address remapping table built by deploy_and_constrcut_all: the
deployment-derived address of each of the FIRST SEVENTEEN deployed contracts
is mapped to its canonical well-known address; the last four deployed
contracts (Groth16Verifier, JWKUtils, Protectable, Bytes) receive no entry. -/
def addr_map : List (Nat × Nat) :=
  [(createAddress SYSTEM_ADDRESS 1, SYSTEM_CALLER),
   (createAddress SYSTEM_ADDRESS 2, SYSTEM_REWARD_ADDR),
   (createAddress SYSTEM_ADDRESS 3, STAKE_CONFIG_ADDR),
   (createAddress SYSTEM_ADDRESS 4, VALIDATOR_MANAGER_ADDR),
   (createAddress SYSTEM_ADDRESS 5, VALIDATOR_PERFORMANCE_TRACKER_ADDR),
   (createAddress SYSTEM_ADDRESS 6, EPOCH_MANAGER_ADDR),
   (createAddress SYSTEM_ADDRESS 7, GOV_TOKEN_ADDR),
   (createAddress SYSTEM_ADDRESS 8, TIMELOCK_ADDR),
   (createAddress SYSTEM_ADDRESS 9, GOVERNOR_ADDR),
   (createAddress SYSTEM_ADDRESS 10, JWK_MANAGER_ADDR),
   (createAddress SYSTEM_ADDRESS 11, KEYLESS_ACCOUNT_ADDR),
   (createAddress SYSTEM_ADDRESS 12, BLOCK_ADDR),
   (createAddress SYSTEM_ADDRESS 13, TIMESTAMP_ADDR),
   (createAddress SYSTEM_ADDRESS 14, GENESIS_ADDR),
   (createAddress SYSTEM_ADDRESS 15, STAKE_CREDIT_ADDR),
   (createAddress SYSTEM_ADDRESS 16, DELEGATION_ADDR),
   (createAddress SYSTEM_ADDRESS 17, GOV_HUB_ADDR)]

/-- The key rewrite applied to one bundle account entry by
deploy_and_constrcut_all lines 466-477: a remapped key is replaced by its
canonical target, any other key is kept. -/
def remapKey (a : Nat) : Nat := (addr_map.lookup a).getD a

/-- Rewriting every key of the bundle state per the remapping table (the
collect into a HashMap keeps one entry per distinct resulting key). -/
def remapBundleKeys (state : List (Nat × α)) : List (Nat × α) :=
  state.map (fun p => (remapKey p.1, p.2))

/-! Genesis finalization (execute.rs genesis_generate lines 759-776). -/

/-- A per-account storage slot of the bundle (revm StorageSlot). -/
structure StorageSlot where
  previous_or_original_value : Nat
  present_value : Nat
deriving DecidableEq, Repr

/-- One account of the final bundle (revm BundleAccount; the fields the
repository reads — the account status flag of the external type is not
consulted by this code and is omitted). -/
structure BundleAccount where
  info : Option AccountInfo
  original_info : Option AccountInfo
  storage : List (Nat × StorageSlot)
deriving DecidableEq, Repr

/-- The per-entry conversion loop of genesis_generate's finalization: each
bundle account's info is unwrapped (the unwrap panic on a missing info is
modelled as `none`) and each storage slot is projected to its present
value. -/
def collectInfos : List (Nat × BundleAccount) → Option (List (Nat × PlainAccount))
  | [] => some []
  | p :: rest =>
    match p.2.info with
    | none => none
    | some i =>
      match collectInfos rest with
      | none => none
      | some tail =>
        some ((p.1, { info := i,
                      storage := p.2.storage.map (fun q => (q.1, q.2.present_value)) }) :: tail)

/-- The finalization step of genesis_generate: remove the bootstrap
SYSTEM_ADDRESS account, then convert every remaining account, unwrapping
its info. -/
def genesisAccountState (state : List (Nat × BundleAccount)) :
    Option (List (Nat × PlainAccount)) :=
  collectInfos (state.filter (fun p => !(p.1 == SYSTEM_ADDRESS)))

/-! Concrete instantiations used to exercise the executor: a minimal
transaction, a VM in which the third transaction reverts, and a VM over a
storage map demonstrating read-after-write. -/

/-- A minimal transaction for driving the executor in examples. -/
def dummyTx : TxEnv :=
  { caller := 0, gas_limit := 30000000, gas_price := 0, transact_to := .create,
    value := 0, data := [] }

/-- A VM capability whose state counts executed transactions: the third
transaction (state 2) produces a Revert result, every other one succeeds;
no transaction raises a VM-level error. -/
def revertAtThreeCap : EvmCapability Nat Unit Nat String :=
  stepCapability
    (fun s _ => (if s == 2 then .revert 0 [] else .success 21000 [], ()))
    (fun s _ => s + 1) (fun s => s)

/-- A VM capability over a storage map: a transaction with data
[0, slot, v] writes v to the slot (returning the write as its diff), one
with data [1, slot] reads the slot and returns the value in its output. -/
def rwStep (s : List (Nat × Nat)) (tx : TxEnv) : ExecutionResult × List (Nat × Nat) :=
  match tx.data with
  | [0, slot, v] => (.success 0 [], [(slot, v)])
  | [1, slot] => (.success 0 [(s.lookup slot).getD 0], [])
  | _ => (.success 0 [], [])

/-- Committing a diff into the storage-map view: new writes shadow old. -/
def rwCommit (s w : List (Nat × Nat)) : List (Nat × Nat) := w ++ s

/-- The read/write capability. -/
def rwCap : EvmCapability (List (Nat × Nat)) (List (Nat × Nat)) (List (Nat × Nat)) String :=
  stepCapability rwStep rwCommit (fun s => s)

/-- A transaction writing 42 to slot 5 of the toy VM. -/
def writeTx : TxEnv :=
  { caller := 0, gas_limit := 0, gas_price := 0, transact_to := .call 7,
    value := 0, data := [0, 5, 42] }

/-- A transaction reading slot 5 of the toy VM. -/
def readTx : TxEnv :=
  { caller := 0, gas_limit := 0, gas_price := 0, transact_to := .call 7,
    value := 0, data := [1, 5] }

/-- An empty snapshot. -/
def emptyDB : InMemoryDB := { accounts := [], bytecodes := [], block_hashes := [], latency_us := 0 }

/-- A snapshot holding one code-free account at address 7 with one storage
slot (key 1 holds 9). -/
def oneAccountDB : InMemoryDB :=
  { accounts := [(7, { info := { balance := 0, nonce := 0, code_hash := 0, code := none },
                       storage := [(1, 9)] })],
    bytecodes := [], block_hashes := [], latency_us := 0 }

/-! Evaluation lemmas: the concrete values of the deployment-derived
addresses, error selectors and block-hash placeholder, obtained by kernel
computation of the Keccak-256 model. -/

set_option maxRecDepth 100000

set_option maxHeartbeats 2000000

theorem createAddress_eval_1 :
    createAddress SYSTEM_ADDRESS 1 = 515330412878651974478734746372204808145222434547 := by decide

theorem createAddress_eval_2 :
    createAddress SYSTEM_ADDRESS 2 = 410556365057780192082296870566657146538054515293 := by decide

theorem createAddress_eval_3 :
    createAddress SYSTEM_ADDRESS 3 = 798656913401135627232192857470168543466665104586 := by decide

theorem createAddress_eval_4 :
    createAddress SYSTEM_ADDRESS 4 = 409751456048444136304209391525758347269861709698 := by decide

theorem createAddress_eval_5 :
    createAddress SYSTEM_ADDRESS 5 = 238044082548333950705483927632573396321407377551 := by decide

theorem createAddress_eval_6 :
    createAddress SYSTEM_ADDRESS 6 = 343755840928349358178115353501365395178329364985 := by decide

theorem createAddress_eval_7 :
    createAddress SYSTEM_ADDRESS 7 = 340947095163164544817145620317471909915991569652 := by decide

theorem createAddress_eval_8 :
    createAddress SYSTEM_ADDRESS 8 = 99730734369212255339697176256712936702760173829 := by decide

theorem createAddress_eval_9 :
    createAddress SYSTEM_ADDRESS 9 = 599487859446535363500967569618289475081116875299 := by decide

theorem createAddress_eval_10 :
    createAddress SYSTEM_ADDRESS 10 = 595442461523579305797793215165858505511633737353 := by decide

theorem createAddress_eval_11 :
    createAddress SYSTEM_ADDRESS 11 = 274001247609469624298884791760483260855242200174 := by decide

theorem createAddress_eval_12 :
    createAddress SYSTEM_ADDRESS 12 = 1176461231408495850357558130912836045216134723535 := by decide

theorem createAddress_eval_13 :
    createAddress SYSTEM_ADDRESS 13 = 1166883879063773232297618341931235612556036948128 := by decide

theorem createAddress_eval_14 :
    createAddress SYSTEM_ADDRESS 14 = 331722976153758561729232256656710553713373480111 := by decide

theorem createAddress_eval_15 :
    createAddress SYSTEM_ADDRESS 15 = 426959600465451152399646389363484751761018979542 := by decide

theorem createAddress_eval_16 :
    createAddress SYSTEM_ADDRESS 16 = 33538957676115237971221177873329017756639911217 := by decide

theorem createAddress_eval_17 :
    createAddress SYSTEM_ADDRESS 17 = 1035409254643928804452524223909986870555104632910 := by decide

theorem createAddress_eval_18 :
    createAddress SYSTEM_ADDRESS 18 = 727245028309641760961130769449551725755238920120 := by decide

theorem createAddress_eval_19 :
    createAddress SYSTEM_ADDRESS 19 = 589907444586958076012828244591477249644409467871 := by decide

theorem createAddress_eval_20 :
    createAddress SYSTEM_ADDRESS 20 = 587155482017547678112939508097799533068305731261 := by decide

theorem createAddress_eval_21 :
    createAddress SYSTEM_ADDRESS 21 = 927553287064003699492111390676973698306333603251 := by decide

theorem genesisDeploymentAddresses_eval :
    genesisDeploymentAddresses =
      [515330412878651974478734746372204808145222434547,
       410556365057780192082296870566657146538054515293,
       798656913401135627232192857470168543466665104586,
       409751456048444136304209391525758347269861709698,
       238044082548333950705483927632573396321407377551,
       343755840928349358178115353501365395178329364985,
       340947095163164544817145620317471909915991569652,
       99730734369212255339697176256712936702760173829,
       599487859446535363500967569618289475081116875299,
       595442461523579305797793215165858505511633737353,
       274001247609469624298884791760483260855242200174,
       1176461231408495850357558130912836045216134723535,
       1166883879063773232297618341931235612556036948128,
       331722976153758561729232256656710553713373480111,
       426959600465451152399646389363484751761018979542,
       33538957676115237971221177873329017756639911217,
       1035409254643928804452524223909986870555104632910,
       727245028309641760961130769449551725755238920120,
       589907444586958076012828244591477249644409467871,
       587155482017547678112939508097799533068305731261,
       927553287064003699492111390676973698306333603251] := by
  unfold genesisDeploymentAddresses
  rw [createAddress_eval_1, createAddress_eval_2, createAddress_eval_3, createAddress_eval_4,
      createAddress_eval_5, createAddress_eval_6, createAddress_eval_7, createAddress_eval_8,
      createAddress_eval_9, createAddress_eval_10, createAddress_eval_11, createAddress_eval_12,
      createAddress_eval_13, createAddress_eval_14, createAddress_eval_15, createAddress_eval_16,
      createAddress_eval_17, createAddress_eval_18, createAddress_eval_19, createAddress_eval_20,
      createAddress_eval_21]

theorem addr_map_eval :
    addr_map =
      [(515330412878651974478734746372204808145222434547, 0xff),
       (410556365057780192082296870566657146538054515293, 0x1002),
       (798656913401135627232192857470168543466665104586, 0x2008),
       (409751456048444136304209391525758347269861709698, 0x2010),
       (238044082548333950705483927632573396321407377551, 0x200b),
       (343755840928349358178115353501365395178329364985, 0xf3),
       (340947095163164544817145620317471909915991569652, 0x2005),
       (99730734369212255339697176256712936702760173829, 0x2007),
       (599487859446535363500967569618289475081116875299, 0x2006),
       (595442461523579305797793215165858505511633737353, 0x2002),
       (274001247609469624298884791760483260855242200174, 0x200a),
       (1176461231408495850357558130912836045216134723535, 0x2001),
       (1166883879063773232297618341931235612556036948128, 0x2004),
       (331722976153758561729232256656710553713373480111, 0x1008),
       (426959600465451152399646389363484751761018979542, 0x2003),
       (33538957676115237971221177873329017756639911217, 0x2009),
       (1035409254643928804452524223909986870555104632910, 0x1007)] := by
  unfold addr_map
  rw [createAddress_eval_1, createAddress_eval_2, createAddress_eval_3, createAddress_eval_4,
      createAddress_eval_5, createAddress_eval_6, createAddress_eval_7, createAddress_eval_8,
      createAddress_eval_9, createAddress_eval_10, createAddress_eval_11, createAddress_eval_12,
      createAddress_eval_13, createAddress_eval_14, createAddress_eval_15, createAddress_eval_16,
      createAddress_eval_17]
  rfl

theorem selector_eval_OnlySystemCaller : OnlySystemCallerSelector = [220, 51, 33, 149] := by decide

theorem selector_eval_UnknownParam : UnknownParamSelector = [151, 184, 131, 84] := by decide

theorem selector_eval_InvalidValue : InvalidValueSelector = [10, 90, 96, 65] := by decide

theorem selector_eval_OnlyCoinbase : OnlyCoinbaseSelector = [17, 108, 100, 168] := by decide

theorem selector_eval_OnlyZeroGasPrice : OnlyZeroGasPriceSelector = [131, 241, 177, 211] := by decide

theorem selector_eval_OnlySystemContract : OnlySystemContractSelector = [242, 44, 67, 144] := by decide

theorem blockHashPlaceholder_eval_5 :
    bytesToNatBE (keccak256 (decimalAscii 5)) =
      93593363902657206032602402517621857831876364839790566465824808804837219950785 := by decide

/-! Helper lemmas about the executor loop. -/

theorem stepCapability_transact {σ δ β ε : Type} (step : σ → TxEnv → ExecutionResult × δ)
    (commit : σ → δ → σ) (tb : σ → β) (s : σ) (tx : TxEnv) :
    (stepCapability (ε := ε) step commit tb).transact s tx = .ok (step s tx) := rfl

theorem stepCapability_commit {σ δ β ε : Type} (step : σ → TxEnv → ExecutionResult × δ)
    (commit : σ → δ → σ) (tb : σ → β) (s : σ) (d : δ) :
    (stepCapability (ε := ε) step commit tb).commit s d = commit s d := rfl

theorem stepCapability_take_bundle {σ δ β ε : Type} (step : σ → TxEnv → ExecutionResult × δ)
    (commit : σ → δ → σ) (tb : σ → β) (s : σ) :
    (stepCapability (ε := ε) step commit tb).take_bundle s = tb s := rfl

theorem execSeqGo_ok_length {σ δ β ε : Type} (cap : EvmCapability σ δ β ε) :
    ∀ (txs : List TxEnv) (s : σ) (rs : List ExecutionResult) (sf : σ),
      execSeqGo cap s txs = .ok (rs, sf) → rs.length = txs.length := by
  intro txs
  induction txs with
  | nil =>
    intro s rs sf h
    simp only [execSeqGo] at h
    cases h
    rfl
  | cons t ts ih =>
    intro s rs sf h
    simp only [execSeqGo] at h
    split at h
    · cases h
    · rename_i rd heq
      split at h
      · cases h
      · rename_i rssf heq2
        simp only [Except.ok.injEq, Prod.mk.injEq] at h
        obtain ⟨h1, h2⟩ := h
        subst h1
        simp [ih (cap.commit s rd.2) rssf.1 rssf.2 (by rw [heq2])]

theorem findIdx_first_failure :
    ∀ (l : List ExecutionResult) (k : Nat), k < l.length →
      (∀ j, j < k → (l.getD j default).is_success = true) →
      (l.getD k default).is_success = false →
      l.findIdx? (fun r => !r.is_success) = some k := by
  intro l
  induction l with
  | nil => intro k hk _ _; simp at hk
  | cons a l ih =>
    intro k hk hbefore hfail
    cases k with
    | zero =>
      simp only [List.getD_cons_zero] at hfail
      simp [List.findIdx?_cons, hfail]
    | succ k' =>
      have ha : a.is_success = true := by
        have := hbefore 0 (Nat.succ_pos k')
        simpa using this
      have hrec := ih k' (by simpa using hk)
        (fun j hj => by simpa using hbefore (j + 1) (by omega))
        (by simpa using hfail)
      simp [List.findIdx?_cons, ha, hrec]

theorem execSeqGo_stepCapability {σ δ β ε : Type} (step : σ → TxEnv → ExecutionResult × δ)
    (commit : σ → δ → σ) (tb : σ → β) :
    ∀ (txs : List TxEnv) (s : σ),
      execSeqGo (ε := ε) (stepCapability step commit tb) s txs =
        .ok ((List.range txs.length).map
              (fun i => (step (cumulativeState step commit s (txs.take i)) (txs.getD i default)).1),
             cumulativeState step commit s txs) := by
  intro txs
  induction txs with
  | nil => intro s; simp [execSeqGo, cumulativeState]
  | cons t ts ih =>
    intro s
    simp only [execSeqGo, stepCapability_transact, stepCapability_commit]
    rw [ih (commit s (step s t).2)]
    simp [List.range_succ_eq_map, List.map_map, cumulativeState, Function.comp,
      List.take_succ_cons, List.getD_cons_succ, List.getD_cons_zero, List.foldl_cons]

theorem execSeqLogGo_snd {σ δ β ε : Type} (cap : EvmCapability σ δ β ε) :
    ∀ (txs : List TxEnv) (s : σ) (i : Nat),
      (execSeqLogGo cap s i txs).2 = execSeqGo cap s txs := by
  intro txs
  induction txs with
  | nil => intro s i; rfl
  | cons t ts ih =>
    intro s i
    simp only [execSeqLogGo, execSeqGo]
    cases cap.transact s t with
    | error e => rfl
    | ok rd =>
      obtain ⟨r, d⟩ := rd
      simp [ih]

theorem collectInfos_isSome_all :
    ∀ l : List (Nat × BundleAccount),
      (collectInfos l).isSome = l.all (fun p => p.2.info.isSome) := by
  intro l
  induction l with
  | nil => rfl
  | cons a l ih =>
    simp only [collectInfos]
    cases ha : a.2.info with
    | none => simp [List.all_cons, ha]
    | some i =>
      cases hc : collectInfos l with
      | none => simp [List.all_cons, ha, ← ih, hc]
      | some tail => simp [List.all_cons, ha, ← ih, hc]

/-! The claims. -/

/-- C1, counterexample: a transaction list in which transaction 3 of 5
produces a Revert while all earlier transactions succeed.  The Sequential
Executor does NOT stop: it returns Ok with all 5 Execution Results (not 3)
and a finalized bundle, contradicting the claimed fatal-abort behaviour;
the 1-based index 3 is only identified by the orchestration scan of the
returned results. -/
theorem revert_does_not_abort_executor :
    execute_revm_sequential revertAtThreeCap 0 [dummyTx, dummyTx, dummyTx, dummyTx, dummyTx]
      = .ok ([.success 21000 [], .success 21000 [], .revert 0 [], .success 21000 [],
              .success 21000 []], 5)
    ∧ ([ExecutionResult.success 21000 [], .success 21000 [], .revert 0 [],
        .success 21000 [], .success 21000 []]).length = 5
    ∧ firstFailureIndex [.success 21000 [], .success 21000 [], .revert 0 [],
        .success 21000 [], .success 21000 []] = some 3 :=
  ⟨rfl, rfl, rfl⟩

/-- C1, amended: a Revert is a normal per-transaction outcome, not a
VM-level error.  Whenever the Sequential Executor returns Ok it returns
exactly one Execution Result per input transaction together with the
finalized bundle, even when some result is a Revert; the genesis
orchestration then identifies the first failing transaction by its 1-based
index when scanning the results. -/
theorem executor_revert_normal_outcome :
    ∀ (σ δ β ε : Type) (cap : EvmCapability σ δ β ε) (s₀ : σ) (txs : List TxEnv)
      (rs : List ExecutionResult) (b : β),
      execute_revm_sequential cap s₀ txs = .ok (rs, b) →
      rs.length = txs.length
      ∧ ∀ k, k < rs.length →
          (∀ j, j < k → (rs.getD j default).is_success = true) →
          (rs.getD k default).is_success = false →
          firstFailureIndex rs = some (k + 1) := by
  intro σ δ β ε cap s₀ txs rs b h
  have hgo : ∃ sf, execSeqGo cap s₀ txs = .ok (rs, sf) := by
    simp only [execute_revm_sequential] at h
    split at h
    · cases h
    · rename_i rssf heq
      simp only [Except.ok.injEq, Prod.mk.injEq] at h
      obtain ⟨h1, h2⟩ := h
      exact ⟨rssf.2, by rw [heq, ← h1]⟩
  obtain ⟨sf, hgo⟩ := hgo
  refine ⟨execSeqGo_ok_length cap txs s₀ rs sf hgo, ?_⟩
  intro k hk hb hkf
  unfold firstFailureIndex
  rw [findIdx_first_failure rs k hk hb hkf]
  rfl

/-- C1 witness: the amended theorem applied to the concrete revert-at-3
run, identifying 1-based index 3. -/
theorem executor_revert_normal_outcome_witness :
    firstFailureIndex [ExecutionResult.success 21000 [], .success 21000 [], .revert 0 [],
      .success 21000 [], .success 21000 []] = some 3 :=
  (executor_revert_normal_outcome Nat Unit Nat String revertAtThreeCap 0
    [dummyTx, dummyTx, dummyTx, dummyTx, dummyTx]
    [.success 21000 [], .success 21000 [], .revert 0 [], .success 21000 [], .success 21000 []]
    5 rfl).2 2 (by decide) (by decide) (by decide)

/-- C2, counterexample: querying storage for an address absent from the
snapshot returns an error, not the zero value. -/
theorem storage_ref_missing_account_errors :
    emptyDB.storage_ref 5 0 =
      .error "can\x27t find account 0x0000000000000000000000000000000000000005" :=
  rfl

/-- C2, amended: the storage lookup returns the zero value only when the
ACCOUNT is present and the key is absent (and, more generally, the stored
value with zero as default for a present account); when the address itself
is absent from the snapshot it returns a backend error. -/
theorem storage_ref_zero_default_present_account :
    ∀ (db : InMemoryDB) (address index : Nat),
      (db.accounts.lookup address = none →
        db.storage_ref address index =
          .error ("can\x27t find account 0x" ++ hexEncode (beBytesFixed 20 address)))
      ∧ (∀ account, db.accounts.lookup address = some account →
          db.storage_ref address index = .ok ((account.storage.lookup index).getD 0)) := by
  intro db address index
  constructor
  · intro h; simp [InMemoryDB.storage_ref, h]
  · intro account h; simp [InMemoryDB.storage_ref, h]

/-- C2 witness: the amended theorem at a concrete snapshot — absent
address errors, present address with absent key yields zero, present key
yields the stored value. -/
theorem storage_ref_zero_default_present_account_witness :
    emptyDB.storage_ref 9 0 =
      .error ("can\x27t find account 0x" ++ hexEncode (beBytesFixed 20 9))
    ∧ oneAccountDB.storage_ref 7 2 = .ok 0
    ∧ oneAccountDB.storage_ref 7 1 = .ok 9 :=
  ⟨(storage_ref_zero_default_present_account emptyDB 9 0).1 rfl,
   (storage_ref_zero_default_present_account oneAccountDB 7 2).2 _ rfl,
   (storage_ref_zero_default_present_account oneAccountDB 7 1).2 _ rfl⟩

/-- C3: the Sequential Executor with a VM that never raises a VM-level
error processes transactions strictly in list order: the i-th Execution
Result is produced from the cumulative view obtained by committing the
diffs of all earlier transactions in order (so transaction i+1 observes
transaction i's committed write), the results are 1:1 with the input list,
and the bundle is taken from the final cumulative view.  Concretely, in a
storage-map VM a read of slot 5 after a write of 42 to slot 5 observes 42. -/
theorem executor_commits_before_next :
    (∀ (σ δ β ε : Type) (step : σ → TxEnv → ExecutionResult × δ) (commit : σ → δ → σ)
        (tb : σ → β) (s : σ) (txs : List TxEnv),
      execute_revm_sequential (ε := ε) (stepCapability step commit tb) s txs =
        .ok ((List.range txs.length).map
              (fun i => (step (cumulativeState step commit s (txs.take i))
                              (txs.getD i default)).1),
             tb (cumulativeState step commit s txs)))
    ∧ execute_revm_sequential rwCap [] [writeTx, readTx] =
        .ok ([.success 0 [], .success 0 [42]], [(5, 42)]) := by
  constructor
  · intro σ δ β ε step commit tb s txs
    unfold execute_revm_sequential
    rw [execSeqGo_stepCapability step commit tb txs s]
    rfl
  · rfl

/-- C4: the Sequential Executor (and its logging variant) is a pure
function of the built initial state, the VM capability and the transaction
list: two runs on equal inputs return identical Execution Results and
identical Bundles. -/
theorem executor_deterministic_replay :
    ∀ (σ δ β ε : Type) (cap : EvmCapability σ δ β ε) (s₁ s₂ : σ)
      (txs₁ txs₂ : List TxEnv), s₁ = s₂ → txs₁ = txs₂ →
      execute_revm_sequential cap s₁ txs₁ = execute_revm_sequential cap s₂ txs₂
      ∧ execute_revm_sequential_with_logging cap s₁ txs₁ =
          execute_revm_sequential_with_logging cap s₂ txs₂ := by
  intro σ δ β ε cap s₁ s₂ txs₁ txs₂ hs ht
  subst hs
  subst ht
  exact ⟨rfl, rfl⟩

/-- C4 witness: determinism applied to a concrete replay. -/
theorem executor_deterministic_replay_witness :
    execute_revm_sequential rwCap [] [writeTx, readTx] =
      execute_revm_sequential rwCap [] [writeTx, readTx]
    ∧ execute_revm_sequential_with_logging rwCap [] [writeTx, readTx] =
        execute_revm_sequential_with_logging rwCap [] [writeTx, readTx] :=
  executor_deterministic_replay _ _ _ _ rwCap [] [] [writeTx, readTx] [writeTx, readTx] rfl rfl

/-- C5, counterexample: the 18th deployed contract (Groth16Verifier, like
the three contracts after it) is in the deployment sequence but has no
entry in the remapping table, so the table is not total over the set of
deployed contracts. -/
theorem addr_map_not_total_on_deployed :
    createAddress SYSTEM_ADDRESS 18 ∈ genesisDeploymentAddresses
    ∧ addr_map.lookup (createAddress SYSTEM_ADDRESS 18) = none := by
  constructor
  · rw [genesisDeploymentAddresses_eval, createAddress_eval_18]; decide
  · rw [addr_map_eval, createAddress_eval_18]; decide

/-- C5, amended: the remapping table is total only over the first 17
deployed contracts (Groth16Verifier, JWKUtils, Protectable, Bytes keep
their deployment-derived addresses); it is injective (distinct sources,
distinct canonical targets); and rewriting bundle keys through it preserves
the number of distinct accounts whenever the induced key rewrite is
injective on the bundle's keys — the rewrite itself never adds or removes
entries. -/
theorem addr_map_partial_injective_count :
    (∀ k, k ∈ genesisDeploymentAddresses.take 17 → (addr_map.lookup k).isSome = true)
    ∧ (addr_map.map Prod.fst).Nodup
    ∧ (addr_map.map Prod.snd).Nodup
    ∧ ∀ (α : Type) (state : List (Nat × α)),
        (state.map (fun p => remapKey p.1)).Nodup →
        ((remapBundleKeys state).map Prod.fst).Nodup
        ∧ (remapBundleKeys state).length = state.length := by
  refine ⟨?_, ?_, ?_, ?_⟩
  · rw [genesisDeploymentAddresses_eval, addr_map_eval]; decide
  · rw [addr_map_eval]; decide
  · rw [addr_map_eval]; decide
  · intro α state h
    constructor
    · have hmap : (remapBundleKeys state).map Prod.fst =
          state.map (fun p => remapKey p.1) := by
        simp [remapBundleKeys, List.map_map, Function.comp]
      rw [hmap]
      exact h
    · simp [remapBundleKeys]

/-- C5 witness: the amended theorem at concrete inputs — the first
deployment address is remapped, and rewriting a two-account bundle with
unmapped keys preserves distinctness and count. -/
theorem addr_map_partial_injective_count_witness :
    (addr_map.lookup (createAddress SYSTEM_ADDRESS 1)).isSome = true
    ∧ ((remapBundleKeys [((5 : Nat), (0 : Nat)), (6, 1)]).map Prod.fst).Nodup
    ∧ (remapBundleKeys [((5 : Nat), (0 : Nat)), (6, 1)]).length = 2 :=
  ⟨addr_map_partial_injective_count.1 _
      (by rw [genesisDeploymentAddresses_eval, createAddress_eval_1]; decide),
   (addr_map_partial_injective_count.2.2.2 Nat [(5, 0), (6, 1)]
      (by simp only [remapKey, addr_map_eval]; decide)).1,
   (addr_map_partial_injective_count.2.2.2 Nat [(5, 0), (6, 1)]
      (by simp only [remapKey, addr_map_eval]; decide)).2⟩

/-- C6: the k-th deployed contract's address is derived from the single
designated deployer SYSTEM_ADDRESS with creation counter k (the deployment
list follows the creation-counter sequence 1..21 exactly), the 21 derived
addresses are pairwise distinct, and re-deriving with the same deployer and
counter reproduces the same address. -/
theorem deployment_address_derivation :
    genesisDeploymentAddresses =
      (List.range 21).map (fun k => createAddress SYSTEM_ADDRESS (k + 1))
    ∧ genesisDeploymentAddresses.Nodup
    ∧ ∀ d n d' n', d = d' → n = n' → createAddress d n = createAddress d' n' := by
  refine ⟨rfl, ?_, ?_⟩
  · rw [genesisDeploymentAddresses_eval]; decide
  · intro d n d' n' hd hn
    rw [hd, hn]

/-- C6 witness: re-derivation with equal deployer and counter. -/
theorem deployment_address_derivation_witness :
    createAddress SYSTEM_ADDRESS 14 = createAddress SYSTEM_ADDRESS 14 :=
  deployment_address_derivation.2.2 SYSTEM_ADDRESS 14 SYSTEM_ADDRESS 14 rfl rfl

/-- C7 (code bug): the selector table of analyze_revert_reason is shifted
by one error relative to the signatures the same file declares.  The true
OnlyCoinbase() selector 0x116c64a8 is labeled (InvalidValue) by
analyze_revert_reason, while match_execution_revert_reason in the same
repository (using the selectors computed from the declared signatures)
classifies the same output as OnlyCoinbase; the true OnlySystemCaller()
selector 0xdc332195 matches nothing in the table; and the
OnlySystemContract(address) selector 0xf22c4390 is present in the table but
labeled (OnlyZeroGasPrice), with the trailing payload still reported. -/
theorem analyze_revert_reason_table_shifted :
    analyze_revert_reason (.revert 0 OnlyCoinbaseSelector) =
      "Revert with gas used: 0\nFunction selector: 0x116c64a8 (InvalidValue)"
    ∧ match_execution_revert_reason (.revert 0 OnlyCoinbaseSelector) =
        "Revert Reason: OnlyCoinbase()"
    ∧ analyze_revert_reason (.revert 0 OnlySystemCallerSelector) =
        "Revert with gas used: 0\nFunction selector: 0xdc332195 (Unknown error selector)"
    ∧ analyze_revert_reason (.revert 0 (OnlySystemContractSelector ++ [1])) =
        "Revert with gas used: 0\nFunction selector: 0xf22c4390 (OnlyZeroGasPrice)\nAdditional data: 0x01" := by
  refine ⟨?_, ?_, ?_, ?_⟩
  · rw [selector_eval_OnlyCoinbase]; rfl
  · simp only [match_execution_revert_reason, selector_eval_OnlySystemCaller,
      selector_eval_UnknownParam, selector_eval_InvalidValue, selector_eval_OnlyCoinbase,
      selector_eval_OnlyZeroGasPrice, selector_eval_OnlySystemContract]
    rfl
  · rw [selector_eval_OnlySystemCaller]; rfl
  · rw [selector_eval_OnlySystemContract]; rfl

/-- C8: the block-hash lookup is total — when a hash is recorded for the
number it is returned, otherwise the deterministic placeholder keccak256 of
the decimal string of the number is returned, and the lookup always
succeeds. -/
theorem block_hash_ref_total_placeholder :
    ∀ (db : InMemoryDB) (number : Nat),
      (db.block_hashes.lookup number = none →
        db.block_hash_ref number = .ok (bytesToNatBE (keccak256 (decimalAscii number))))
      ∧ (∀ h, db.block_hashes.lookup number = some h → db.block_hash_ref number = .ok h)
      ∧ ∃ v, db.block_hash_ref number = .ok v := by
  intro db number
  refine ⟨?_, ?_, ?_⟩
  · intro h; simp [InMemoryDB.block_hash_ref, h]
  · intro hh h; simp [InMemoryDB.block_hash_ref, h]
  · exact ⟨_, rfl⟩

/-- C8 witness: the placeholder for block 5 on an empty snapshot, and a
recorded hash returned as-is. -/
theorem block_hash_ref_total_placeholder_witness :
    emptyDB.block_hash_ref 5 =
      .ok 93593363902657206032602402517621857831876364839790566465824808804837219950785
    ∧ InMemoryDB.block_hash_ref
        { accounts := [], bytecodes := [], block_hashes := [(9, 77)], latency_us := 0 } 9
      = .ok 77 := by
  constructor
  · rw [(block_hash_ref_total_placeholder emptyDB 5).1 rfl, blockHashPlaceholder_eval_5]
  · exact (block_hash_ref_total_placeholder _ 9).2.1 77 rfl

/-- C9: for every capability, built initial state and transaction list,
the logging executor variant computes exactly the same (Execution Results,
Bundle) value as the plain sequential executor — the two differ only in the
emitted console lines. -/
theorem logging_executor_refines_plain :
    ∀ (σ δ β ε : Type) (cap : EvmCapability σ δ β ε) (s₀ : σ) (txs : List TxEnv),
      (execute_revm_sequential_with_logging cap s₀ txs).2 =
        execute_revm_sequential cap s₀ txs := by
  intro σ δ β ε cap s₀ txs
  simp only [execute_revm_sequential_with_logging, execute_revm_sequential]
  rw [execSeqLogGo_snd cap txs s₀ 0]

/-- C10: genesis finalization (after removing the bootstrap SYSTEM_ADDRESS
account) completes without hitting the unwrap panic exactly when every
remaining bundle account carries Some account info. -/
theorem genesis_finalize_no_panic_iff :
    ∀ state : List (Nat × BundleAccount),
      (genesisAccountState state).isSome = true ↔
        ∀ p, p ∈ state → p.1 ≠ SYSTEM_ADDRESS → p.2.info.isSome = true := by
  intro state
  simp only [genesisAccountState]
  rw [collectInfos_isSome_all, List.all_eq_true]
  constructor
  · intro h p hp hne
    exact h p (List.mem_filter.mpr ⟨hp, by simpa using hne⟩)
  · intro h p hp
    obtain ⟨hp1, hp2⟩ := List.mem_filter.mp hp
    exact h p hp1 (by simpa using hp2)

end GravityGenesis
